import Mathlib

/-!
# Verification of the QA-Monitor authentication handlers

Shallow embedding of the two HTTP route handlers of this repository
(`PUT /api/auth/change-password` and `POST /api/auth/create-account`) and of
the client form page's server-error mapping, together with proofs of the
specified properties.

The document store (`User` model) is an external collaborator whose file is
not part of the sources; its behaviour (write-time password hashing,
`comparePassword`, unique email index, `isActive` default) is modelled from
the spec and marked as such in the doc comments below.  The password hash is
kept abstract as a parameter `hash : String → String`.
-/

/-- Leading-whitespace removal on a character list (helper for `jsTrim`). -/
def jsTrimLeft : List Char → List Char
  | [] => []
  | c :: cs => if c.isWhitespace then jsTrimLeft cs else c :: cs

/-- JavaScript `String.prototype.trim`: removes leading and trailing
whitespace. -/
def jsTrim (s : String) : String :=
  String.mk (jsTrimLeft ((jsTrimLeft s.data.reverse).reverse))

/-- JavaScript `String.prototype.toLowerCase` (ASCII case mapping). -/
def jsToLowerCase (s : String) : String :=
  String.mk (s.data.map Char.toLower)

/-- `pat.isPrefixOf l` scanned along every suffix of `l` (helper for
`jsIncludes`). -/
def jsIncludesList (pat : List Char) : List Char → Bool
  | [] => pat.isPrefixOf []
  | c :: cs => pat.isPrefixOf (c :: cs) || jsIncludesList pat cs

/-- JavaScript `String.prototype.includes`: the pattern occurs as a
contiguous substring. -/
def jsIncludes (s pat : String) : Bool :=
  jsIncludesList pat.data s.data

/-- A persisted user record, as in the `QaMonitorUsers` document model:
identifier, name, email, stored password hash, role, active flag. -/
structure UserRec where
  id : String
  name : String
  email : String
  password : String
  role : String
  isActive : Bool
deriving Repr, DecidableEq

/-- The public projection of a user record returned by the create-account
handler (`userResponse` in the source): it has no password field. -/
structure UserResponse where
  id : String
  name : String
  email : String
  role : String
  isActive : Bool
deriving Repr, DecidableEq

/-- An HTTP JSON response of either handler: a `success:true` body with a
message and optional user data, or a `success:false` body with an error
string; both carry the HTTP status code. -/
inductive ApiResponse where
  | success (status : Nat) (message : String) (data : Option UserResponse)
  | failure (status : Nat) (error : String)
deriving Repr, DecidableEq

/-- JavaScript truthiness test on an optional string field: `!x` is true
exactly when the field is absent (`undefined`) or the empty string. -/
def falsy : Option String → Bool
  | none => true
  | some s => s == ""

/-- Modelled from the spec: the store's password-comparison capability
(`user.comparePassword(candidate)`), which checks the candidate plaintext
against the stored one-way hash. -/
def comparePassword (hash : String → String) (stored candidate : String) : Bool :=
  hash candidate == stored

/-- `User.findById`: first record whose identifier matches. -/
def findById (db : List UserRec) (uid : String) : Option UserRec :=
  db.find? (fun u => u.id == uid)

/-- `User.findOne({email})`: first record whose email field equals the key. -/
def findOneByEmail (db : List UserRec) (email : String) : Option UserRec :=
  db.find? (fun u => u.email == email)

/-- Modelled from the spec: saving a fetched document (`user.save()` in the
password-change handler) persists it in place of the record with the same
identifier, with the password field rehashed by the store's write-time hash
hook. -/
def saveExisting (hash : String → String) (db : List UserRec) (u : UserRec) :
    List UserRec :=
  db.map (fun v => if v.id == u.id then { u with password := hash u.password } else v)

/-- Modelled from the spec: saving a new document (`user.save()` in the
create-account handler).  The store enforces email uniqueness with a unique
index; a duplicate key raises an error with code 11000.  Otherwise the new
record is appended with its password hashed by the write-time hook. -/
def saveNew (hash : String → String) (db : List UserRec) (u : UserRec) :
    Except Nat (UserRec × List UserRec) :=
  if db.any (fun v => v.email == u.email) then
    .error 11000
  else
    let hashed := { u with password := hash u.password }
    .ok (hashed, db ++ [hashed])

/-- Body of a `PUT /api/auth/change-password` request; each field may be
absent. -/
structure ChangePwBody where
  oldPassword : Option String
  newPassword : Option String
deriving Repr, DecidableEq

/-- The `PUT /api/auth/change-password` handler, translated from the source.
`identity` is the result of `getUserFromRequest` (the resolved caller's user
id, if any).  Returns the HTTP response together with the resulting store. -/
def changePasswordPUT (hash : String → String) (identity : Option String)
    (body : ChangePwBody) (db : List UserRec) : ApiResponse × List UserRec :=
  match identity with
  | none => (.failure 401 "Unauthorized", db)
  | some userId =>
    if falsy body.oldPassword || falsy body.newPassword then
      (.failure 400 "Old password and new password are required", db)
    else
      let oldPassword := body.oldPassword.getD ""
      let newPassword := body.newPassword.getD ""
      if newPassword.length < 6 then
        (.failure 400 "New password must be at least 6 characters long", db)
      else
        match findById db userId with
        | none => (.failure 404 "User not found", db)
        | some user =>
          if !user.isActive then
            (.failure 401 "Account is deactivated", db)
          else if !comparePassword hash user.password oldPassword then
            (.failure 400 "Current password is incorrect", db)
          else if comparePassword hash user.password newPassword then
            (.failure 400 "New password must be different from current password", db)
          else
            (.success 200 "Password changed successfully" none,
              saveExisting hash db { user with password := newPassword })

/-- Body of a `POST /api/auth/create-account` request; each field may be
absent.  The destructuring default `role = 'tester'` applies only when the
role key is absent, hence `role.getD "tester"` below. -/
structure CreateBody where
  name : Option String
  email : Option String
  oldPassword : Option String
  newPassword : Option String
  role : Option String
deriving Repr, DecidableEq

/-- The record handed to `new User({...})` in the create-account handler.
Modelled from the spec: the schema defaults the active-status flag to true. -/
def newUserDoc (newId : String) (name email password role : String) : UserRec :=
  { id := newId, name := jsTrim name, email := jsTrim (jsToLowerCase email),
    password := password, role := role, isActive := true }

/-- The `POST /api/auth/create-account` handler, translated from the source.
`newId` stands for the store-generated identifier of a newly created
document.  Returns the HTTP response together with the resulting store. -/
def createAccountPOST (hash : String → String) (newId : String)
    (body : CreateBody) (db : List UserRec) : ApiResponse × List UserRec :=
  let role := body.role.getD "tester"
  if falsy body.name || falsy body.email ||
      falsy body.oldPassword || falsy body.newPassword then
    (.failure 400 "All fields are required", db)
  else
    let name := body.name.getD ""
    let email := body.email.getD ""
    let oldPassword := body.oldPassword.getD ""
    let newPassword := body.newPassword.getD ""
    if newPassword.length < 6 then
      (.failure 400 "New password must be at least 6 characters long", db)
    else if oldPassword == newPassword then
      (.failure 400 "New password must be different from the old password", db)
    else
      match findOneByEmail db (jsToLowerCase email) with
      | some _ => (.failure 400 "User with this email already exists", db)
      | none =>
        match saveNew hash db (newUserDoc newId name email newPassword role) with
        | .ok (savedUser, db') =>
          (.success 200 "Account created successfully"
            (some { id := savedUser.id, name := savedUser.name,
                    email := savedUser.email, role := savedUser.role,
                    isActive := savedUser.isActive }), db')
        | .error code =>
          if code == 11000 then
            (.failure 400 "User with this email already exists", db)
          else
            (.failure 500 "Failed to create account", db)

/-- Field-level error state of the client form (`FieldErrors` in the page
component): at most one slot is populated by the server-error handler. -/
structure FieldErrors where
  oldPassword : Option String
  newPassword : Option String
  general : Option String
deriving Repr, DecidableEq

/-- The server-error mapping of the client form's `handleSubmit` catch
block, translated from the source: messages mentioning the current password
or containing "password" go to the old-password field slot, everything else
to the general slot. -/
def mapServerError (errorMessage : String) : FieldErrors :=
  if jsIncludes errorMessage "Current password is incorrect" ||
      jsIncludes errorMessage "password" then
    { oldPassword := some errorMessage, newPassword := none, general := none }
  else
    { oldPassword := none, newPassword := none, general := some errorMessage }

/-! ## Helper lemmas about the store operations -/

/-- A `findById` hit pins the record's identifier. -/
theorem findById_id_eq {db : List UserRec} {uid : String} {user : UserRec}
    (h : findById db uid = some user) : user.id = uid := by
  have := List.find?_some h
  simpa using this

/-- `saveExisting` steps through a cons cell. -/
theorem saveExisting_cons (hash : String → String) (u v : UserRec)
    (rest : List UserRec) :
    saveExisting hash (v :: rest) u =
      (if v.id == u.id then { u with password := hash u.password } else v) ::
        saveExisting hash rest u := rfl

/-- `findById` steps through a cons cell. -/
theorem findById_cons (v : UserRec) (rest : List UserRec) (uid : String) :
    findById (v :: rest) uid =
      if v.id == uid then some v else findById rest uid := by
  cases hb : (v.id == uid) with
  | true => simp [findById, List.find?_cons, hb]
  | false => simp [findById, List.find?_cons, hb]

/-- Records whose identifier differs from the saved document's are left
untouched by `saveExisting`. -/
theorem saveExisting_of_ne (hash : String → String) (u : UserRec) :
    ∀ l : List UserRec, (∀ w ∈ l, w.id ≠ u.id) → saveExisting hash l u = l := by
  intro l
  induction l with
  | nil => intro _; rfl
  | cons w rest ih =>
    intro h
    have hw : (w.id == u.id) = false :=
      beq_eq_false_iff_ne.mpr (h w (by simp))
    rw [saveExisting_cons, if_neg (by simp [hw]),
      ih (fun v hv => h v (by simp [hv]))]

/-- After saving a document with the found record's identifier, `findById`
returns the saved document (with its password rehashed by the write hook). -/
theorem findById_saveExisting (hash : String → String) (u : UserRec)
    (uid : String) (user : UserRec) (hid : u.id = user.id) :
    ∀ db : List UserRec, findById db uid = some user →
      findById (saveExisting hash db u) uid =
        some { u with password := hash u.password } := by
  intro db
  induction db with
  | nil => intro hfind; simp [findById] at hfind
  | cons v rest ih =>
    intro hfind
    have huid : user.id = uid := findById_id_eq hfind
    cases hb : (v.id == uid) with
    | true =>
      have hv : v = user := by simpa [findById_cons, hb] using hfind
      have hvu : (v.id == u.id) = true := by simp [hv, hid]
      have hu : (u.id == uid) = true := by simp [hid, huid]
      rw [saveExisting_cons, if_pos hvu, findById_cons]
      simp [hu]
    | false =>
      have hrest : findById rest uid = some user := by
        simpa [findById_cons, hb] using hfind
      have hvu : (v.id == u.id) = false := by
        rw [hid, huid]
        exact hb
      rw [saveExisting_cons, if_neg (by simp [hvu]), findById_cons]
      simp only [hb]
      rw [if_neg (by simp)]
      exact ih hrest

/-- With pairwise-distinct identifiers, saving a fetched document rewrites
exactly the position of the record `findById` returned. -/
theorem saveExisting_split (hash : String → String) (u : UserRec)
    (uid : String) (user : UserRec) (hid : u.id = user.id) :
    ∀ db : List UserRec, (db.map UserRec.id).Nodup →
      findById db uid = some user →
      ∃ pre post, db = pre ++ user :: post ∧
        saveExisting hash db u =
          pre ++ { u with password := hash u.password } :: post := by
  intro db
  induction db with
  | nil => intro _ hfind; simp [findById] at hfind
  | cons v rest ih =>
    intro hnodup hfind
    have huid : user.id = uid := findById_id_eq hfind
    rw [List.map_cons, List.nodup_cons] at hnodup
    cases hb : (v.id == uid) with
    | true =>
      have hv : v = user := by simpa [findById_cons, hb] using hfind
      have hvu : (v.id == u.id) = true := by simp [hv, hid]
      refine ⟨[], rest, by simp [hv], ?_⟩
      have hrest : saveExisting hash rest u = rest := by
        apply saveExisting_of_ne
        intro w hw hwid
        apply hnodup.1
        have hwv : w.id = v.id := by rw [hwid, hid, hv]
        rw [← hwv]
        exact List.mem_map_of_mem UserRec.id hw
      rw [saveExisting_cons, if_pos hvu, hrest]
      simp
    | false =>
      have hrest : findById rest uid = some user := by
        simpa [findById_cons, hb] using hfind
      have hvu : (v.id == u.id) = false := by
        rw [hid, huid]
        exact hb
      obtain ⟨pre, post, hdb, hsave⟩ := ih hnodup.2 hrest
      refine ⟨v :: pre, post, by simp [hdb], ?_⟩
      rw [saveExisting_cons, if_neg (by simp [hvu]), hsave]
      simp

/-- Branch analysis of the password-change handler: every failure branch
leaves the store untouched, and the single success branch records the exact
conditions under which it is taken. -/
theorem changePasswordPUT_cases (hash : String → String)
    (identity : Option String) (body : ChangePwBody) (db : List UserRec) :
    (∃ s e, changePasswordPUT hash identity body db = (.failure s e, db)) ∨
    (∃ uid user, identity = some uid ∧
      (falsy body.oldPassword || falsy body.newPassword) = false ∧
      ¬ (body.newPassword.getD "").length < 6 ∧
      findById db uid = some user ∧
      user.isActive = true ∧
      comparePassword hash user.password (body.oldPassword.getD "") = true ∧
      comparePassword hash user.password (body.newPassword.getD "") = false ∧
      changePasswordPUT hash identity body db =
        (.success 200 "Password changed successfully" none,
          saveExisting hash db
            { user with password := body.newPassword.getD "" })) := by
  rcases identity with _ | uid
  · exact .inl ⟨401, "Unauthorized", rfl⟩
  cases hfal : (falsy body.oldPassword || falsy body.newPassword) with
  | true =>
    exact .inl ⟨400, "Old password and new password are required",
      by simp [changePasswordPUT, hfal]⟩
  | false =>
    by_cases hlen : (body.newPassword.getD "").length < 6
    · exact .inl ⟨400, "New password must be at least 6 characters long",
        by simp [changePasswordPUT, hfal, hlen]⟩
    cases hfind : findById db uid with
    | none =>
      exact .inl ⟨404, "User not found",
        by simp [changePasswordPUT, hfal, hlen, hfind]⟩
    | some user =>
      cases hact : user.isActive with
      | false =>
        exact .inl ⟨401, "Account is deactivated",
          by simp [changePasswordPUT, hfal, hlen, hfind, hact]⟩
      | true =>
        cases hold : comparePassword hash user.password (body.oldPassword.getD "") with
        | false =>
          exact .inl ⟨400, "Current password is incorrect",
            by simp [changePasswordPUT, hfal, hlen, hfind, hact, hold]⟩
        | true =>
          cases hnew : comparePassword hash user.password (body.newPassword.getD "") with
          | true =>
            exact .inl ⟨400, "New password must be different from current password",
              by simp [changePasswordPUT, hfal, hlen, hfind, hact, hold, hnew]⟩
          | false =>
            exact .inr ⟨uid, user, rfl, rfl, hlen, hfind, hact, hold, hnew,
              by simp [changePasswordPUT, hfal, hlen, hfind, hact, hold, hnew]⟩

/-! ## Claim theorems for the password-change handler -/

/-- C1: a password-change request with a resolved caller identity, both
fields present, `newPassword` of length at least 6, a matching active user
record, `oldPassword` verifying against the stored hash and `newPassword`
not verifying against it, overwrites the record's password with
`newPassword` (rehashed by the store's write hook), persists it, and
returns a 200 `{success: true, message}` response with no user data;
afterwards the stored hash verifies against `newPassword` and no longer
against the prior password. -/
theorem changePassword_success_updates_hash
    (hash : String → String) (uid old new : String) (db : List UserRec)
    (user : UserRec)
    (holdne : old ≠ "") (hlen : ¬ new.length < 6)
    (hfind : findById db uid = some user)
    (hact : user.isActive = true)
    (hold : comparePassword hash user.password old = true)
    (hnew : comparePassword hash user.password new = false) :
    (changePasswordPUT hash (some uid) ⟨some old, some new⟩ db).1 =
        .success 200 "Password changed successfully" none ∧
    ∃ u', findById (changePasswordPUT hash (some uid) ⟨some old, some new⟩ db).2 uid =
          some u' ∧
      u' = { user with password := hash new } ∧
      comparePassword hash u'.password new = true ∧
      comparePassword hash u'.password old = false := by
  have hnewne : new ≠ "" := by
    intro h
    exact hlen (by simp [h])
  have hfal : (falsy (some old) || falsy (some new)) = false := by
    simp [falsy, holdne, hnewne]
  have hres : changePasswordPUT hash (some uid) ⟨some old, some new⟩ db =
      (.success 200 "Password changed successfully" none,
        saveExisting hash db { user with password := new }) := by
    simp [changePasswordPUT, hfal, hlen, hfind, hact, hold, hnew, falsy,
      holdne, hnewne]
  have hfind' :
      findById (saveExisting hash db { user with password := new }) uid =
        some { user with password := hash new } :=
    findById_saveExisting hash { user with password := new } uid user rfl db hfind
  have h1 : hash old = user.password := by
    simpa [comparePassword] using hold
  have h2 : hash new ≠ user.password := by
    simpa [comparePassword] using hnew
  refine ⟨by rw [hres], { user with password := hash new }, ?_, rfl, ?_, ?_⟩
  · rw [hres]
    exact hfind'
  · simp [comparePassword]
  · simp only [comparePassword]
    refine beq_eq_false_iff_ne.mpr ?_
    intro hcontra
    exact h2 (by rw [← hcontra, h1])

/-- Witness for C1 at a concrete store and request. -/
theorem changePassword_success_updates_hash_witness :
    (changePasswordPUT (fun s => "#" ++ s) (some "u1")
        ⟨some "oldpw1", some "newpw1"⟩
        [⟨"u1", "A", "a@x.com", "#oldpw1", "tester", true⟩]).1 =
      .success 200 "Password changed successfully" none := by
  exact (changePassword_success_updates_hash (fun s => "#" ++ s) "u1"
    "oldpw1" "newpw1" [⟨"u1", "A", "a@x.com", "#oldpw1", "tester", true⟩]
    ⟨"u1", "A", "a@x.com", "#oldpw1", "tester", true⟩
    (by decide) (by decide) (by decide) (by decide) (by decide) (by decide)).1

/-- C2: on every failure path of the password-change handler no record is
written (the store is unchanged), and on every successful call exactly one
record is mutated and only its password field changes (the store has
pairwise-distinct identifiers, per the store's unique-id invariant). -/
theorem changePassword_frame
    (hash : String → String) (identity : Option String) (body : ChangePwBody)
    (db : List UserRec) (hnodup : (db.map UserRec.id).Nodup) :
    (∀ s e, (changePasswordPUT hash identity body db).1 = .failure s e →
      (changePasswordPUT hash identity body db).2 = db) ∧
    (∀ s m d, (changePasswordPUT hash identity body db).1 = .success s m d →
      ∃ pre user post pw, db = pre ++ user :: post ∧
        (changePasswordPUT hash identity body db).2 =
          pre ++ { user with password := pw } :: post ∧
        pw ≠ user.password) := by
  rcases changePasswordPUT_cases hash identity body db with
    ⟨s', e', hfail⟩ | ⟨uid, user, hid, hfal, hlen, hfind, hact, hold, hnew, hres⟩
  · constructor
    · intro s e _
      rw [hfail]
    · intro s m d h
      rw [hfail] at h
      simp at h
  · constructor
    · intro s e h
      rw [hres] at h
      simp at h
    · intro s m d _
      obtain ⟨pre, post, hdb, hsave⟩ :=
        saveExisting_split hash { user with password := body.newPassword.getD "" }
          uid user rfl db hnodup hfind
      refine ⟨pre, user, post, hash (body.newPassword.getD ""), hdb, ?_, ?_⟩
      · rw [hres]
        exact hsave
      · intro hpw
        rw [comparePassword, hpw] at hnew
        simp at hnew

/-- Witness for C2 at a concrete store and request. -/
theorem changePassword_frame_witness :
    (changePasswordPUT (fun s => "#" ++ s) none ⟨some "a", some "bbbbbb"⟩
      [⟨"u1", "A", "a@x.com", "#p", "tester", true⟩]).2 =
      [⟨"u1", "A", "a@x.com", "#p", "tester", true⟩] := by
  exact (changePassword_frame (fun s => "#" ++ s) none ⟨some "a", some "bbbbbb"⟩
    [⟨"u1", "A", "a@x.com", "#p", "tester", true⟩] (by decide)).1
    401 "Unauthorized" (by decide)

/-- C3: the password-change handler checks its failure conditions in order
(missing identity 401; missing field 400; short new password 400; no record
404; inactive account 401; wrong old password 400; same password 400) and
returns the first that applies; the same-password condition is decided
exactly by the store's password comparison applied to `newPassword`. -/
theorem changePassword_check_order
    (hash : String → String) (body : ChangePwBody) (db : List UserRec)
    (uid : String) (user : UserRec) :
    ((changePasswordPUT hash none body db).1 = .failure 401 "Unauthorized") ∧
    ((falsy body.oldPassword || falsy body.newPassword) = true →
      (changePasswordPUT hash (some uid) body db).1 =
        .failure 400 "Old password and new password are required") ∧
    ((falsy body.oldPassword || falsy body.newPassword) = false →
      (body.newPassword.getD "").length < 6 →
      (changePasswordPUT hash (some uid) body db).1 =
        .failure 400 "New password must be at least 6 characters long") ∧
    ((falsy body.oldPassword || falsy body.newPassword) = false →
      ¬ (body.newPassword.getD "").length < 6 →
      findById db uid = none →
      (changePasswordPUT hash (some uid) body db).1 =
        .failure 404 "User not found") ∧
    ((falsy body.oldPassword || falsy body.newPassword) = false →
      ¬ (body.newPassword.getD "").length < 6 →
      findById db uid = some user →
      user.isActive = false →
      (changePasswordPUT hash (some uid) body db).1 =
        .failure 401 "Account is deactivated") ∧
    ((falsy body.oldPassword || falsy body.newPassword) = false →
      ¬ (body.newPassword.getD "").length < 6 →
      findById db uid = some user →
      user.isActive = true →
      comparePassword hash user.password (body.oldPassword.getD "") = false →
      (changePasswordPUT hash (some uid) body db).1 =
        .failure 400 "Current password is incorrect") ∧
    ((falsy body.oldPassword || falsy body.newPassword) = false →
      ¬ (body.newPassword.getD "").length < 6 →
      findById db uid = some user →
      user.isActive = true →
      comparePassword hash user.password (body.oldPassword.getD "") = true →
      ((changePasswordPUT hash (some uid) body db).1 =
          .failure 400 "New password must be different from current password" ↔
        comparePassword hash user.password (body.newPassword.getD "") = true)) := by
  refine ⟨rfl, ?_, ?_, ?_, ?_, ?_, ?_⟩
  · intro hfal
    simp [changePasswordPUT, hfal]
  · intro hfal hlen
    simp [changePasswordPUT, hfal, hlen]
  · intro hfal hlen hfind
    simp [changePasswordPUT, hfal, hlen, hfind]
  · intro hfal hlen hfind hact
    simp [changePasswordPUT, hfal, hlen, hfind, hact]
  · intro hfal hlen hfind hact hold
    simp [changePasswordPUT, hfal, hlen, hfind, hact, hold]
  · intro hfal hlen hfind hact hold
    cases hnew : comparePassword hash user.password (body.newPassword.getD "") with
    | true =>
      simp [changePasswordPUT, hfal, hlen, hfind, hact, hold, hnew]
    | false =>
      constructor
      · intro h
        simp [changePasswordPUT, hfal, hlen, hfind, hact, hold, hnew] at h
      · intro h
        simp at h

/-- Witness for C3: with a constant hash the same-password branch fires even
though the two request fields differ as strings. -/
theorem changePassword_check_order_witness :
    (changePasswordPUT (fun _ => "h") (some "u1") ⟨some "a", some "bbbbbb"⟩
      [⟨"u1", "A", "a@x.com", "h", "tester", true⟩]).1 =
      .failure 400 "New password must be different from current password" := by
  exact ((changePassword_check_order (fun _ => "h")
      ⟨some "a", some "bbbbbb"⟩ [⟨"u1", "A", "a@x.com", "h", "tester", true⟩]
      "u1" ⟨"u1", "A", "a@x.com", "h", "tester", true⟩).2.2.2.2.2.2
    (by decide) (by decide) (by decide) (by decide) (by decide)).mpr (by decide)

/-- C7: replaying an already-applied successful password change with the
same request (stale `oldPassword`) fails with the 400 wrong-old-password
response and leaves the store unchanged; it never succeeds a second time. -/
theorem changePassword_replay_fails
    (hash : String → String) (uid old new : String) (db : List UserRec)
    (hne : old ≠ new)
    (hsucc : ∃ s m d,
      (changePasswordPUT hash (some uid) ⟨some old, some new⟩ db).1 =
        .success s m d) :
    changePasswordPUT hash (some uid) ⟨some old, some new⟩
        (changePasswordPUT hash (some uid) ⟨some old, some new⟩ db).2 =
      (.failure 400 "Current password is incorrect",
        (changePasswordPUT hash (some uid) ⟨some old, some new⟩ db).2) := by
  obtain ⟨s, m, d, hs⟩ := hsucc
  rcases changePasswordPUT_cases hash (some uid) ⟨some old, some new⟩ db with
    ⟨s', e', hfail⟩ | ⟨uid', user, hid, hfal, hlen, hfind, hact, hold, hnew, hres⟩
  · rw [hfail] at hs
    simp at hs
  · injection hid with hid
    subst hid
    have hold' : comparePassword hash user.password old = true := by
      simpa using hold
    have hnew' : comparePassword hash user.password new = false := by
      simpa using hnew
    have hlen' : ¬ new.length < 6 := by simpa using hlen
    have hfal' : (falsy (some old) || falsy (some new)) = false := by
      simpa using hfal
    have hfind' :
        findById (saveExisting hash db { user with password := new }) uid =
          some { user with password := hash new } :=
      findById_saveExisting hash { user with password := new } uid user rfl db hfind
    have h1 : hash old = user.password := by
      simpa [comparePassword] using hold'
    have h2 : hash new ≠ user.password := by
      simpa [comparePassword] using hnew'
    have hwrong : comparePassword hash (hash new) old = false := by
      simp only [comparePassword]
      refine beq_eq_false_iff_ne.mpr ?_
      intro hcontra
      exact h2 (by rw [← hcontra, h1])
    have hfind2 :
        findById (saveExisting hash db { user with password := new }) uid =
          some { user with password := hash new } := hfind'
    rw [hact] at hfind2
    have holdne : old ≠ "" := by
      intro h
      subst h
      simp [falsy] at hfal'
    have hnewne : new ≠ "" := by
      intro h
      subst h
      simp [falsy] at hfal'
    rw [hres]
    simp [changePasswordPUT, falsy, holdne, hnewne, hlen', hact, hfind2, hwrong]

/-- Witness for C7 at a concrete store and request. -/
theorem changePassword_replay_fails_witness :
    changePasswordPUT (fun s => "#" ++ s) (some "u1")
        ⟨some "oldpw1", some "newpw1"⟩
        (changePasswordPUT (fun s => "#" ++ s) (some "u1")
          ⟨some "oldpw1", some "newpw1"⟩
          [⟨"u1", "A", "a@x.com", "#oldpw1", "tester", true⟩]).2 =
      (.failure 400 "Current password is incorrect",
        (changePasswordPUT (fun s => "#" ++ s) (some "u1")
          ⟨some "oldpw1", some "newpw1"⟩
          [⟨"u1", "A", "a@x.com", "#oldpw1", "tester", true⟩]).2) := by
  exact changePassword_replay_fails (fun s => "#" ++ s) "u1" "oldpw1" "newpw1"
    [⟨"u1", "A", "a@x.com", "#oldpw1", "tester", true⟩]
    (by decide) ⟨200, "Password changed successfully", none, by decide⟩

/-! ## Claim theorems for the create-account handler -/

/-- C4: an account-creation request with a missing field, a short new
password, or `oldPassword` equal to `newPassword` gets a 400 validation
response and creates no record; the three checks apply in that order, and
each fires for every store `db`, hence before any lookup of existing
users. -/
theorem createAccount_validation_order
    (hash : String → String) (newId : String) (body : CreateBody)
    (db : List UserRec) :
    ((falsy body.name || falsy body.email ||
        falsy body.oldPassword || falsy body.newPassword) = true →
      createAccountPOST hash newId body db =
        (.failure 400 "All fields are required", db)) ∧
    ((falsy body.name || falsy body.email ||
        falsy body.oldPassword || falsy body.newPassword) = false →
      (body.newPassword.getD "").length < 6 →
      createAccountPOST hash newId body db =
        (.failure 400 "New password must be at least 6 characters long", db)) ∧
    ((falsy body.name || falsy body.email ||
        falsy body.oldPassword || falsy body.newPassword) = false →
      ¬ (body.newPassword.getD "").length < 6 →
      body.oldPassword.getD "" = body.newPassword.getD "" →
      createAccountPOST hash newId body db =
        (.failure 400 "New password must be different from the old password",
          db)) := by
  refine ⟨?_, ?_, ?_⟩
  · intro h
    simp [createAccountPOST, h]
  · intro h hlen
    simp [createAccountPOST, h, hlen]
  · intro h hlen heq
    simp [createAccountPOST, h, hlen, heq]

/-- Witness for C4 at a concrete request with a missing field. -/
theorem createAccount_validation_order_witness :
    createAccountPOST (fun s => "#" ++ s) "u9"
        ⟨some "A", some "a@x.com", some "p1", none, none⟩ [] =
      (.failure 400 "All fields are required", []) := by
  exact (createAccount_validation_order (fun s => "#" ++ s) "u9"
    ⟨some "A", some "a@x.com", some "p1", none, none⟩ []).1 (by decide)

/-- C5: a creation request whose lower-cased email matches an existing
record gets the 400 conflict response and creates no record; and when the
pre-check passes but the store's save raises the duplicate-key error 11000
(normalized email already present), the handler returns the same 400
conflict response rather than a 500. -/
theorem createAccount_conflict
    (hash : String → String) (newId : String) (body : CreateBody)
    (db : List UserRec) (u : UserRec)
    (hfal : (falsy body.name || falsy body.email ||
      falsy body.oldPassword || falsy body.newPassword) = false)
    (hlen : ¬ (body.newPassword.getD "").length < 6)
    (hne : body.oldPassword.getD "" ≠ body.newPassword.getD "") :
    (findOneByEmail db (jsToLowerCase (body.email.getD "")) = some u →
      createAccountPOST hash newId body db =
        (.failure 400 "User with this email already exists", db)) ∧
    (findOneByEmail db (jsToLowerCase (body.email.getD "")) = none →
      (db.any (fun v =>
        v.email == jsTrim (jsToLowerCase (body.email.getD "")))) = true →
      createAccountPOST hash newId body db =
        (.failure 400 "User with this email already exists", db)) := by
  have hne' : (body.oldPassword.getD "" == body.newPassword.getD "") = false :=
    beq_eq_false_iff_ne.mpr hne
  constructor
  · intro hpre
    simp [createAccountPOST, hfal, hlen, hne', hpre]
  · intro hpre hdup
    simp [createAccountPOST, saveNew, newUserDoc, hfal, hlen, hne', hpre, hdup]

/-- Witness for C5: duplicate lower-cased email rejected by the pre-check. -/
theorem createAccount_conflict_witness :
    createAccountPOST (fun s => "#" ++ s) "u9"
        ⟨some "B", some "A@x.com", some "default", some "secret1", none⟩
        [⟨"u1", "A", "a@x.com", "#p", "tester", true⟩] =
      (.failure 400 "User with this email already exists",
        [⟨"u1", "A", "a@x.com", "#p", "tester", true⟩]) := by
  exact (createAccount_conflict (fun s => "#" ++ s) "u9"
    ⟨some "B", some "A@x.com", some "default", some "secret1", none⟩
    [⟨"u1", "A", "a@x.com", "#p", "tester", true⟩]
    ⟨"u1", "A", "a@x.com", "#p", "tester", true⟩
    (by decide) (by decide) (by decide)).1 (by decide)

/-- C6: a valid creation request persists exactly one new record with the
password hashed by the write hook, email lower-cased and trimmed, name
trimmed, role defaulted to "tester" when unspecified, and returns a 200
response whose data holds exactly the created record's identifier, name,
email, role and active flag (no password field exists in the response). -/
theorem createAccount_success
    (hash : String → String) (newId : String) (body : CreateBody)
    (db : List UserRec)
    (hfal : (falsy body.name || falsy body.email ||
      falsy body.oldPassword || falsy body.newPassword) = false)
    (hlen : ¬ (body.newPassword.getD "").length < 6)
    (hne : body.oldPassword.getD "" ≠ body.newPassword.getD "")
    (hpre : findOneByEmail db (jsToLowerCase (body.email.getD "")) = none)
    (hdup : (db.any (fun v =>
      v.email == jsTrim (jsToLowerCase (body.email.getD "")))) = false) :
    createAccountPOST hash newId body db =
      (.success 200 "Account created successfully"
        (some { id := newId, name := jsTrim (body.name.getD ""),
                email := jsTrim (jsToLowerCase (body.email.getD "")),
                role := body.role.getD "tester", isActive := true }),
        db ++ [{ id := newId, name := jsTrim (body.name.getD ""),
                 email := jsTrim (jsToLowerCase (body.email.getD "")),
                 password := hash (body.newPassword.getD ""),
                 role := body.role.getD "tester", isActive := true }]) ∧
    comparePassword hash (hash (body.newPassword.getD ""))
        (body.newPassword.getD "") = true ∧
    (body.role = none → body.role.getD "tester" = "tester") := by
  have hne' : (body.oldPassword.getD "" == body.newPassword.getD "") = false :=
    beq_eq_false_iff_ne.mpr hne
  refine ⟨?_, by simp [comparePassword], ?_⟩
  · simp [createAccountPOST, saveNew, newUserDoc, hfal, hlen, hne', hpre, hdup]
  · intro h
    rw [h]
    rfl

/-- Witness for C6 at a concrete request against an empty store. -/
theorem createAccount_success_witness :
    createAccountPOST (fun s => "#" ++ s) "u2"
        ⟨some " B ", some " B@X.com ", some "default", some "secret1", none⟩
        [] =
      (.success 200 "Account created successfully"
        (some ⟨"u2", "B", "b@x.com", "tester", true⟩),
        [⟨"u2", "B", "b@x.com", "#secret1", "tester", true⟩]) := by
  have h := (createAccount_success (fun s => "#" ++ s) "u2"
    ⟨some " B ", some " B@X.com ", some "default", some "secret1", none⟩
    [] (by decide) (by decide) (by decide) (by decide) (by decide)).1
  rw [h]
  decide

/-- C9: the duplicate-email pre-check looks up the lower-cased but
untrimmed email while the stored key is lower-cased and trimmed, so an
email differing from a stored one only by surrounding whitespace passes the
pre-check and the handler proceeds to the save, which raises the
duplicate-key error. -/
theorem createAccount_precheck_misses_whitespace :
    findOneByEmail [⟨"u1", "A", "a@x.com", "#p", "tester", true⟩]
        (jsToLowerCase " a@x.com ") = none ∧
    jsTrim (jsToLowerCase " a@x.com ") = "a@x.com" ∧
    (⟨"u1", "A", "a@x.com", "#p", "tester", true⟩ : UserRec).email =
      "a@x.com" ∧
    saveNew (fun s => "#" ++ s)
        [⟨"u1", "A", "a@x.com", "#p", "tester", true⟩]
        (newUserDoc "u2" "B" " a@x.com " "secret1" "tester") = .error 11000 ∧
    createAccountPOST (fun s => "#" ++ s) "u2"
        ⟨some "B", some " a@x.com ", some "default", some "secret1", none⟩
        [⟨"u1", "A", "a@x.com", "#p", "tester", true⟩] =
      (.failure 400 "User with this email already exists",
        [⟨"u1", "A", "a@x.com", "#p", "tester", true⟩]) := by
  refine ⟨by decide, by decide, rfl, by rfl, by decide⟩

/-- C10: in both handlers a field supplied as the empty string is treated
exactly like an absent field: it triggers the 400 missing-fields response,
and substituting the empty string for an absent field (or vice versa) does
not change the handler's result. -/
theorem emptyString_treated_as_missing
    (hash : String → String) (newId uid : String)
    (body : CreateBody) (cbody : ChangePwBody) (db : List UserRec) :
    ((body.name = some "" ∨ body.email = some "" ∨
        body.oldPassword = some "" ∨ body.newPassword = some "") →
      createAccountPOST hash newId body db =
        (.failure 400 "All fields are required", db)) ∧
    ((cbody.oldPassword = some "" ∨ cbody.newPassword = some "") →
      changePasswordPUT hash (some uid) cbody db =
        (.failure 400 "Old password and new password are required", db)) ∧
    (createAccountPOST hash newId { body with name := some "" } db =
      createAccountPOST hash newId { body with name := none } db) ∧
    (createAccountPOST hash newId { body with email := some "" } db =
      createAccountPOST hash newId { body with email := none } db) ∧
    (createAccountPOST hash newId { body with oldPassword := some "" } db =
      createAccountPOST hash newId { body with oldPassword := none } db) ∧
    (createAccountPOST hash newId { body with newPassword := some "" } db =
      createAccountPOST hash newId { body with newPassword := none } db) ∧
    (changePasswordPUT hash (some uid) { cbody with oldPassword := some "" } db =
      changePasswordPUT hash (some uid) { cbody with oldPassword := none } db) ∧
    (changePasswordPUT hash (some uid) { cbody with newPassword := some "" } db =
      changePasswordPUT hash (some uid) { cbody with newPassword := none } db) := by
  refine ⟨?_, ?_, ?_, ?_, ?_, ?_, ?_, ?_⟩
  · rintro (h | h | h | h) <;> simp [createAccountPOST, falsy, h]
  · rintro (h | h) <;> simp [changePasswordPUT, falsy, h]
  · simp [createAccountPOST, falsy]
  · simp [createAccountPOST, falsy]
  · simp [createAccountPOST, falsy]
  · simp [createAccountPOST, falsy]
  · simp [changePasswordPUT, falsy]
  · simp [changePasswordPUT, falsy]

/-- Witness for C10: an empty old password in a change request. -/
theorem emptyString_treated_as_missing_witness :
    changePasswordPUT (fun s => "#" ++ s) (some "u1")
        ⟨some "", some "secret1"⟩ [] =
      (.failure 400 "Old password and new password are required", []) := by
  exact (emptyString_treated_as_missing (fun s => "#" ++ s) "u9" "u1"
    ⟨none, none, none, none, none⟩ ⟨some "", some "secret1"⟩ []).2.1
    (Or.inl rfl)

/-! ## Claim theorem for the client form's server-error mapping -/

/-- A successful `isPrefixOf` yields an append decomposition. -/
theorem isPrefixOf_exists_append :
    ∀ pat l : List Char, pat.isPrefixOf l = true → ∃ t, l = pat ++ t := by
  intro pat
  induction pat with
  | nil => intro l _; exact ⟨l, rfl⟩
  | cons c cs ih =>
    intro l h
    cases l with
    | nil => simp [List.isPrefixOf] at h
    | cons d ds =>
      simp only [List.isPrefixOf, Bool.and_eq_true, beq_iff_eq] at h
      obtain ⟨t, ht⟩ := ih ds h.2
      exact ⟨t, by rw [List.cons_append, ← ht, h.1]⟩

/-- A list is a prefix of itself followed by anything. -/
theorem isPrefixOf_self_append :
    ∀ l t : List Char, l.isPrefixOf (l ++ t) = true := by
  intro l
  induction l with
  | nil => intro t; cases t <;> simp [List.isPrefixOf]
  | cons c cs ih => intro t; simp [List.isPrefixOf, ih t]

/-- `jsIncludesList` steps through a cons cell. -/
theorem jsIncludesList_cons (pat : List Char) (c : Char) (l : List Char) :
    jsIncludesList pat (c :: l) =
      (pat.isPrefixOf (c :: l) || jsIncludesList pat l) := rfl

/-- A pattern found in a list is still found after prepending anything. -/
theorem jsIncludesList_mono_pre (pat : List Char) :
    ∀ (pre l : List Char), jsIncludesList pat l = true →
      jsIncludesList pat (pre ++ l) = true := by
  intro pre
  induction pre with
  | nil => intro l h; exact h
  | cons c cs ih =>
    intro l h
    rw [List.cons_append, jsIncludesList_cons, ih l h, Bool.or_true]

/-- The pattern is found at the head of `pat ++ rest`. -/
theorem jsIncludesList_self_append (pat rest : List Char) :
    jsIncludesList pat (pat ++ rest) = true := by
  cases pat with
  | nil =>
    cases rest with
    | nil => rfl
    | cons c cs => rw [List.nil_append, jsIncludesList_cons]; rfl
  | cons p ps =>
    rw [List.cons_append, jsIncludesList_cons]
    have : (p :: ps).isPrefixOf (p :: (ps ++ rest)) = true :=
      isPrefixOf_self_append (p :: ps) rest
    rw [this, Bool.true_or]

/-- A found pattern yields an append decomposition of the searched list. -/
theorem jsIncludesList_split (pat : List Char) :
    ∀ l : List Char, jsIncludesList pat l = true →
      ∃ pre t, l = pre ++ pat ++ t := by
  intro l
  induction l with
  | nil =>
    intro h
    cases pat with
    | nil => exact ⟨[], [], rfl⟩
    | cons p ps => simp [jsIncludesList, List.isPrefixOf] at h
  | cons c cs ih =>
    intro h
    rw [jsIncludesList_cons] at h
    cases hp : pat.isPrefixOf (c :: cs) with
    | true =>
      obtain ⟨t, ht⟩ := isPrefixOf_exists_append pat (c :: cs) hp
      exact ⟨[], t, by simpa using ht⟩
    | false =>
      rw [hp, Bool.false_or] at h
      obtain ⟨pre, t, hpt⟩ := ih h
      exact ⟨c :: pre, t, by simp [hpt]⟩

/-- A message containing "Current password is incorrect" in particular
contains "password". -/
theorem jsIncludes_long_imp_short {msg : String}
    (h : jsIncludes msg "Current password is incorrect" = true) :
    jsIncludes msg "password" = true := by
  obtain ⟨pre, t, ht⟩ := jsIncludesList_split _ _ h
  have hdecomp : ("Current password is incorrect".data : List Char) =
      "Current ".data ++ ("password".data ++ " is incorrect".data) := by decide
  rw [jsIncludes, ht, hdecomp]
  have hassoc :
      pre ++ ("Current ".data ++ ("password".data ++ " is incorrect".data)) ++ t =
        (pre ++ "Current ".data) ++
          ("password".data ++ (" is incorrect".data ++ t)) := by
    simp [List.append_assoc]
  rw [hassoc]
  exact jsIncludesList_mono_pre _ _ _
    (jsIncludesList_self_append "password".data (" is incorrect".data ++ t))

/-- C8: for every server error message, the client form controller assigns
the message to the old-password field's error slot exactly when the message
contains the substring "password", and otherwise surfaces it as a general
error; the new-password slot never receives a server error. -/
theorem clientError_field_mapping (msg : String) :
    (jsIncludes msg "password" = true →
      mapServerError msg =
        { oldPassword := some msg, newPassword := none, general := none }) ∧
    (jsIncludes msg "password" = false →
      mapServerError msg =
        { oldPassword := none, newPassword := none, general := some msg }) := by
  constructor
  · intro h
    simp [mapServerError, h]
  · intro h
    have hlong : jsIncludes msg "Current password is incorrect" = false := by
      cases hl : jsIncludes msg "Current password is incorrect" with
      | false => rfl
      | true =>
        rw [jsIncludes_long_imp_short hl] at h
        exact absurd h (by simp)
    simp [mapServerError, h, hlong]

/-- Witness for C8: a message containing "password" lands in the
old-password slot. -/
theorem clientError_field_mapping_witness :
    mapServerError "Invalid password" =
      { oldPassword := some "Invalid password", newPassword := none,
        general := none } := by
  exact (clientError_field_mapping "Invalid password").1 (by decide)
